import Mathlib

/-!
Verification of the factsumm fact-consistency scoring pipeline
(`factsumm/factsumm.py`).

The development embeds the pipeline shallowly:

* external pretrained-model services (segmenter, NER, RE, QG, QA, OpenIE,
  BERTScore, ROUGE, and the QAGS answer-agreement utility, the latter living
  in a `utils` module outside the excerpted file) are modelled as function
  fields of an `Adapters` record;
* Python floats become `Rat` (all pipeline arithmetic is ratios and sums);
* Python `set`s of 3-tuples of strings become `Finset Triple`;
* console printing and adapter invocations are recorded as an explicit
  `List Event` trace returned alongside each value;
* Python runtime errors (`ValueError`, `ZeroDivisionError`, `IndexError`,
  `TypeError`) become an `Except PyError` result;
* the lazily-loaded adapter slots of the `FactSumm` object (fields that hold
  a model-name string until first use and a loaded handle afterwards) are
  modelled separately as a small state machine over `FactSummSlots`.
-/

set_option linter.unusedVariables false

namespace FactSumm

/-- A relation triple `(head, relation, tail)`; equality is exact string
equality on all three fields, as in the Python `set` of 3-tuples. -/
abbrev Triple := String × String × String

/-- An entity mention as returned by the NER adapter: a dict with keys
`word`, `entity`, `start`, `end`. -/
structure Entity where
  word : String
  entity : String
  start : Nat
  «end» : Nat
deriving DecidableEq

/-- One relation-extraction candidate built by `build_perm`: the dict
`\x7b"text": line, "spans": [(s0, e0), (s1, e1)]\x7d`. -/
structure PermCandidate where
  text : String
  spans : List (Nat × Nat)
deriving DecidableEq

/-- One question/answer record as returned by the QA adapter. -/
structure QARecord where
  question : String
  prediction : String
deriving DecidableEq

/-- One OpenIE triple dict with keys `subject`, `relation`, `object`. -/
structure IeTriple where
  subject : String
  relation : String
  object : String
deriving DecidableEq

/-- The external adapters consumed by the pipeline.  Each field is the
loaded, callable form of the corresponding external service; the
`qags_score` agreement utility is imported from a module outside the
excerpted source and is likewise treated as an external function. -/
structure Adapters where
  segmenter : String → List String
  ner : List String → List (List Entity)
  rel : List PermCandidate → List Triple
  qg : List String → List (List Entity) → List String
  qa : String → List String → List QARecord
  ie : String → List IeTriple
  bert_score : List String → List String → List (List Rat)
  rouge_n : String → List String → Nat → Rat
  rouge_l : String → List String → Rat
  qags_score : List QARecord → List QARecord → Rat

deriving instance DecidableEq for Except

attribute [local semireducible] Rat.add Rat.mul Rat.inv

/-- Python runtime errors that the pipeline can raise. -/
inductive PyError where
  | valueError (msg : String)
  | zeroDivisionError
  | indexError
  | typeError (msg : String)
deriving DecidableEq

/-- Observable side effects of one pipeline run: console prints (the verbose
diagnostics, carrying exactly the data the Python helpers print) and adapter
invocations. -/
inductive Event where
  | adapterCall (name : String)
  | print (s : String)
  | printEntities (mode : String) (ents : List (List Entity))
  | printFacts (mode : String) (facts : Finset Triple)
  | printQas (mode : String) (qas : List QARecord)
  | printTriples (mode : String) (triples : Finset Triple)
  | printScore (label : String) (value : Rat)
deriving DecidableEq

/-- `itertools.permutations(l, 2)`: all ordered pairs of elements of `l`
taken at two distinct positions, first index outermost, the second index
running over the remaining positions in order. -/
def permutations2 {α : Type} (l : List α) : List (α × α) :=
  (List.range l.length).flatMap fun i =>
    match l.get? i with
    | some x => (l.eraseIdx i).map fun y => (x, y)
    | none => []

/-- `FactSumm.build_perm`: for each (sentence, entity-list) pair, every
ordered pair of distinct entity mentions of that sentence, packaged with the
full sentence text as context. -/
def build_perm (lines : List String) (total_entities : List (List Entity)) :
    List (List PermCandidate) :=
  (lines.zip total_entities).map fun lp =>
    (permutations2 lp.2).map fun comb =>
      { text := lp.1,
        spans := [(comb.1.start, comb.1.«end»), (comb.2.start, comb.2.«end»)] }

/-- `FactSumm._filter_out`: keep, on each side, only the triples whose
`(head, relation)` prefix pair occurs on the other side. -/
def filter_out (sources summaries : Finset Triple) : Finset Triple × Finset Triple :=
  let source_tuple := sources.image fun source => (source.1, source.2.1)
  let summary_tuple := summaries.image fun summary => (summary.1, summary.2.1)
  (sources.filter fun source => (source.1, source.2.1) ∈ summary_tuple,
   summaries.filter fun summary => (summary.1, summary.2.1) ∈ source_tuple)

/-- The score computed by both `extract_facts` and `extract_triples` on the
already-filtered triple sets: `|summary ∩ source| / |summary|`, with the
explicit `0.0` default when the summary-side set is empty. -/
def fact_score_of (source_facts summary_facts : Finset Triple) : Rat :=
  let common_facts := summary_facts ∩ source_facts
  if summary_facts = ∅ then 0
  else (common_facts.card : Rat) / (summary_facts.card : Rat)

/-- `FactSumm._segment`: run the segmenter adapter and strip each returned
line. -/
def _segment (ad : Adapters) (text : String) : List String × List Event :=
  ((ad.segmenter text).map fun line => line.trim, [.adapterCall "segmenter"])

/-- `FactSumm.get_facts`: build the permutation candidates, run the RE
adapter once per sentence over its candidate list, and collect the returned
triples into a set. -/
def get_facts (ad : Adapters) (lines : List String) (entities : List (List Entity)) :
    Finset Triple × List Event :=
  let perms := build_perm lines entities
  let triples := perms.foldl (fun acc perm => acc ++ ad.rel perm) []
  (triples.toFinset, perms.map fun _ => Event.adapterCall "rel")

/-- `FactSumm.extract_facts`: segment both texts, extract per-line entities,
derive the two entity-conditioned triple sets, filter them for
comparability, and compute the fact score; returns both entity lists and the
score, plus the trace of adapter calls and (verbose-only) prints. -/
def extract_facts (ad : Adapters) (source summary : String) (verbose : Bool)
    (device : String) :
    (List (List Entity) × List (List Entity) × Rat) × List Event :=
  let sseg := _segment ad source
  let mseg := _segment ad summary
  let source_lines := sseg.1
  let summary_lines := mseg.1
  let source_ents := ad.ner source_lines
  let summary_ents := ad.ner summary_lines
  let sfacts := get_facts ad source_lines source_ents
  let mfacts := get_facts ad summary_lines summary_ents
  let p := filter_out sfacts.1 mfacts.1
  let source_facts := p.1
  let summary_facts := p.2
  let common_facts := summary_facts ∩ source_facts
  let diff_facts := summary_facts \ source_facts
  let fact_score := fact_score_of source_facts summary_facts
  let ev := sseg.2 ++ mseg.2 ++ [.adapterCall "ner", .adapterCall "ner"]
      ++ sfacts.2 ++ mfacts.2
      ++ (if verbose then
            [.printEntities "source" source_ents, .printEntities "summary" summary_ents,
             .printFacts "source" source_facts, .printFacts "summary" summary_facts,
             .printFacts "common" common_facts, .printFacts "diff" diff_facts]
          else [])
      ++ (if verbose then [.printScore "Fact Score" fact_score] else [])
  ((source_ents, summary_ents, fact_score), ev)

/-- `FactSumm.extract_qas`: generate questions from the summary side only,
answer them against the full source and full summary texts, and score
agreement with the external `qags_score` utility.  Entity lists are reused
when passed, and recomputed with the NER adapter when `none`. -/
def extract_qas (ad : Adapters) (source summary : String)
    (source_ents summary_ents : Option (List (List Entity))) (verbose : Bool)
    (device : String) : Rat × List Event :=
  let sseg := _segment ad source
  let mseg := _segment ad summary
  let source_lines := sseg.1
  let summary_lines := mseg.1
  let source_ents' := match source_ents with
    | none => ad.ner source_lines
    | some e => e
  let summary_ents' := match summary_ents with
    | none => ad.ner summary_lines
    | some e => e
  let ner_ev :=
    (match source_ents with | none => [Event.adapterCall "ner"] | some _ => [])
      ++ (match summary_ents with | none => [Event.adapterCall "ner"] | some _ => [])
  let summary_qas := ad.qg summary_lines summary_ents'
  let source_answers := ad.qa source summary_qas
  let summary_answers := ad.qa summary summary_qas
  let qa_score := ad.qags_score source_answers summary_answers
  let ev := sseg.2 ++ mseg.2 ++ ner_ev
      ++ [.adapterCall "qg", .adapterCall "qa", .adapterCall "qa"]
      ++ (if verbose then
            [.printQas "source" source_answers, .printQas "summary" summary_answers]
          else [])
      ++ (if verbose then [.printScore "QAGS Score" qa_score] else [])
  (qa_score, ev)

/-- `FactSumm.extract_triples`: run the OpenIE adapter on both raw texts,
collect the `(subject, relation, object)` triples into sets, filter for
comparability, and compute the open-triple score. -/
def extract_triples (ad : Adapters) (source summary : String) (verbose : Bool) :
    Rat × List Event :=
  let source_triples := ((ad.ie source).map fun t => (t.subject, t.relation, t.object)).toFinset
  let summary_triples := ((ad.ie summary).map fun t => (t.subject, t.relation, t.object)).toFinset
  let p := filter_out source_triples summary_triples
  let source_triples := p.1
  let summary_triples := p.2
  let triple_score := fact_score_of source_triples summary_triples
  let ev := [Event.adapterCall "ie", Event.adapterCall "ie"]
      ++ (if verbose then
            [.printTriples "source" source_triples, .printTriples "summary" summary_triples]
          else [])
      ++ (if verbose then [.printScore "Triple Score" triple_score] else [])
  (triple_score, ev)

/-- `FactSumm.calculate_rouge`: segment the source and score the summary
against the source lines with the external ROUGE calculator. -/
def calculate_rouge (ad : Adapters) (source summary : String) (verbose : Bool) :
    (Rat × Rat × Rat) × List Event :=
  let sseg := _segment ad source
  let source_lines := sseg.1
  let rouge_1 := ad.rouge_n summary source_lines 1
  let rouge_2 := ad.rouge_n summary source_lines 2
  let rouge_l := ad.rouge_l summary source_lines
  let ev := sseg.2
      ++ [Event.adapterCall "rouge", Event.adapterCall "rouge", Event.adapterCall "rouge"]
      ++ (if verbose then
            [.printScore "Avg. ROUGE-1" rouge_1, .printScore "Avg. ROUGE-2" rouge_2,
             .printScore "Avg. ROUGE-L" rouge_l]
          else [])
  ((rouge_1, rouge_2, rouge_l), ev)

/-- The per-row post-processing loop of `calculate_bert_score`: for each
score row, `score.pop(-1)` (an `IndexError` on an empty row) and then
`sum(score) / len(score)` (a `ZeroDivisionError` when the popped row is
empty). -/
def filter_scores : List (List Rat) → Except PyError (List Rat)
  | [] => .ok []
  | score :: rest =>
    match score with
    | [] => .error .indexError
    | _ :: _ =>
      let score := score.dropLast
      if score.length = 0 then .error .zeroDivisionError
      else
        match filter_scores rest with
        | .error e => .error e
        | .ok tail => .ok (score.sum / (score.length : Rat) :: tail)

/-- `FactSumm.calculate_bert_score`: pad the summary side to
`[summary, "dummy"]` (the single-sentence bmm workaround), invoke the
similarity adapter, drop each row's last (placeholder) entry and average the
remainder.  The verbose path indexes rows 0, 1 and 2 of the result, raising
`IndexError` when fewer rows came back. -/
def calculate_bert_score (ad : Adapters) (source summary : String) (verbose : Bool)
    (device : String) : Except PyError (List Rat) × List Event :=
  let sseg := _segment ad source
  let source_lines := sseg.1
  let summary_lines := [summary, "dummy"]
  let scores := ad.bert_score summary_lines source_lines
  let ev := sseg.2 ++ [Event.adapterCall "bert_score"]
  match filter_scores scores with
  | .error e => (.error e, ev)
  | .ok filtered_scores =>
    if verbose then
      match filtered_scores with
      | p :: r :: f :: _ =>
        (.ok filtered_scores,
         ev ++ [.printScore "Precision" p, .printScore "Recall" r, .printScore "F1" f])
      | _ => (.error .indexError, ev)
    else (.ok filtered_scores, ev)

/-- The running totals accumulated by `FactSumm.__call__` over the batch
(`fact_scores`, `qags_scores`, `triple_scores`, `rouges`, `bert_scores`). -/
structure CallAcc where
  fact_scores : Rat
  qags_scores : Rat
  triple_scores : Rat
  rouges : Rat × Rat × Rat
  bert_scores : Rat × Rat × Rat
deriving DecidableEq

/-- The `bert_score` entry of the returned metric mapping. -/
structure BertScoreDict where
  precision : Rat
  «recall» : Rat
  f1 : Rat
deriving DecidableEq

/-- The metric mapping returned by `FactSumm.__call__`. -/
structure Metrics where
  fact_score : Rat
  qa_score : Rat
  triple_score : Rat
  rouge : Rat × Rat × Rat
  bert_score : BertScoreDict
deriving DecidableEq

/-- The per-pair loop of `FactSumm.__call__`: run the five scoring steps on
each `(source, summary)` pair in order, reusing the entities extracted by
`extract_facts` for `extract_qas`, and add each pair's scores to the running
totals.  The `bert_score[0] / [1] / [2]` accesses raise `IndexError` when the
similarity step returned fewer than three rows. -/
def call_loop (ad : Adapters) (verbose : Bool) (device : String) :
    List (String × String) → CallAcc → Except PyError CallAcc × List Event
  | [], acc => (.ok acc, [])
  | (source, summary) :: rest, acc =>
    let ef := extract_facts ad source summary verbose device
    let source_ents := ef.1.1
    let summary_ents := ef.1.2.1
    let fact_score := ef.1.2.2
    let eqa := extract_qas ad source summary (some source_ents) (some summary_ents)
        verbose device
    let etr := extract_triples ad source summary verbose
    let erg := calculate_rouge ad source summary verbose
    let ebs := calculate_bert_score ad source summary verbose device
    let ev := ef.2 ++ eqa.2 ++ etr.2 ++ erg.2 ++ ebs.2
    match ebs.1 with
    | .error e => (.error e, ev)
    | .ok bert_score =>
      match bert_score with
      | b0 :: b1 :: b2 :: _ =>
        let acc :=
          { fact_scores := acc.fact_scores + fact_score,
            qags_scores := acc.qags_scores + eqa.1,
            triple_scores := acc.triple_scores + etr.1,
            rouges := (acc.rouges.1 + erg.1.1, acc.rouges.2.1 + erg.1.2.1,
                       acc.rouges.2.2 + erg.1.2.2),
            bert_scores := (acc.bert_scores.1 + b0, acc.bert_scores.2.1 + b1,
                            acc.bert_scores.2.2 + b2) }
        let r := call_loop ad verbose device rest acc
        (r.1, ev ++ r.2)
      | _ => (.error .indexError, ev)

/-- `FactSumm.__call__` on the two-sequence form of its input (a single
string pair is wrapped by the Python code into two singleton lists before
this point): check the batch lengths, loop over the pairs, and divide the
totals by `num_pairs` — except the three `bert_score` components, which the
code returns as plain sums.  With zero pairs the division `0 / 0` on two
Python ints raises `ZeroDivisionError`. -/
def call (ad : Adapters) (sources summaries : List String) (verbose : Bool)
    (device : String) : Except PyError Metrics × List Event :=
  if sources.length ≠ summaries.length then
    (.error (.valueError "`sources` and `summaries` must have the same number of elements!"),
     [])
  else
    let num_pairs := sources.length
    let r := call_loop ad verbose device (sources.zip summaries)
        { fact_scores := 0, qags_scores := 0, triple_scores := 0,
          rouges := (0, 0, 0), bert_scores := (0, 0, 0) }
    match r.1 with
    | .error e => (.error e, r.2)
    | .ok acc =>
      if num_pairs = 0 then (.error .zeroDivisionError, r.2)
      else
        (.ok { fact_score := acc.fact_scores / (num_pairs : Rat),
               qa_score := acc.qags_scores / (num_pairs : Rat),
               triple_score := acc.triple_scores / (num_pairs : Rat),
               rouge := (acc.rouges.1 / (num_pairs : Rat),
                         acc.rouges.2.1 / (num_pairs : Rat),
                         acc.rouges.2.2 / (num_pairs : Rat)),
               bert_score := { precision := acc.bert_scores.1,
                               «recall» := acc.bert_scores.2.1,
                               f1 := acc.bert_scores.2.2 } }, r.2)

/-- A lazily-loaded adapter slot of the `FactSumm` object: either still the
configured model-name string, or the handle loaded from that name with a
device hint. -/
inductive Slot where
  | str (name : String)
  | loaded (name : String) (device : String)
deriving DecidableEq

/-- `isinstance(slot, str)`. -/
def Slot.isStr : Slot → Bool
  | .str _ => true
  | .loaded _ _ => false

/-- `load_ner` / `load_rel` / `load_qg` / `load_qa` / `load_bert_score`:
turn a model-name string into a loaded handle on the given device.  The
loaders live in `utils` modules outside the excerpted source; only the
transition they perform on the slot matters here. -/
def load_model (s : Slot) (device : String) : Slot :=
  match s with
  | .str n => .loaded n device
  | s => s

/-- Invoke the object held in a slot.  Invoking a slot that still holds the
plain model-name string is Python calling a `str`, a `TypeError`. -/
def use_slot (s : Slot) : Except PyError Unit :=
  match s with
  | .str _ => .error (.typeError "str object is not callable")
  | .loaded _ _ => .ok ()

/-- The lazily-loaded adapter slots of one `FactSumm` orchestrator
instance. -/
structure FactSummSlots where
  ner : Slot
  rel : Slot
  qg : Slot
  qa : Slot
  bert_score : Slot
  ie : Option String
deriving DecidableEq

/-- `FactSumm.__init__`: every adapter is configured by name only; nothing
is loaded at construction (`self.ie = None`). -/
def factsumm_init (ner_model rel_model qg_model qa_model bert_score_model : String) :
    FactSummSlots :=
  { ner := .str ner_model, rel := .str rel_model, qg := .str qg_model,
    qa := .str qa_model, bert_score := .str bert_score_model, ie := none }

/-- Slot lifecycle of `extract_facts` on texts with at least one sentence
(so the RE adapter is applied to at least one per-sentence candidate list):
the guard `isinstance(self.ner, str) and isinstance(self.rel, str)` loads
the two models only when *both* slots are still strings, then the NER
adapter is invoked on each text and the RE adapter over the candidates. -/
def extract_facts_slots (st : FactSummSlots) (device : String) :
    Except PyError FactSummSlots := do
  let st := if st.ner.isStr && st.rel.isStr then
      { st with ner := load_model st.ner device, rel := load_model st.rel device }
    else st
  let _ ← use_slot st.ner
  let _ ← use_slot st.ner
  let _ ← use_slot st.rel
  pure st

/-- Slot lifecycle of a standalone `extract_qas` call (default `None` entity
arguments): load QG and QA when both are still strings, load NER when it is
still a string, then invoke NER on each text, QG once and QA twice. -/
def extract_qas_slots (st : FactSummSlots) (device : String) :
    Except PyError FactSummSlots := do
  let st := if st.qg.isStr && st.qa.isStr then
      { st with qg := load_model st.qg device, qa := load_model st.qa device }
    else st
  let st := if st.ner.isStr then { st with ner := load_model st.ner device } else st
  let _ ← use_slot st.ner
  let _ ← use_slot st.ner
  let _ ← use_slot st.qg
  let _ ← use_slot st.qa
  let _ ← use_slot st.qa
  pure st

/-- Slot lifecycle of `extract_triples`: load the shared OpenIE adapter when
`self.ie is None` (no device hint), then invoke it on both texts. -/
def extract_triples_slots (st : FactSummSlots) : Except PyError FactSummSlots := do
  let st := if st.ie = none then { st with ie := some "OpenIE" } else st
  pure st

/-- Slot lifecycle of `calculate_bert_score`: load the similarity model when
its slot is still a string, then invoke it once. -/
def calculate_bert_score_slots (st : FactSummSlots) (device : String) :
    Except PyError FactSummSlots := do
  let st := if st.bert_score.isStr then
      { st with bert_score := load_model st.bert_score device }
    else st
  let _ ← use_slot st.bert_score
  pure st

/-- One public scoring operation of the orchestrator. -/
inductive Op where
  | facts
  | qas
  | triples
  | bert
deriving DecidableEq

/-- Run a sequence of scoring operations against the slot state, stopping at
the first Python error. -/
def run_ops (device : String) : List Op → FactSummSlots → Except PyError FactSummSlots
  | [], st => .ok st
  | op :: rest, st => do
    let st ← match op with
      | .facts => extract_facts_slots st device
      | .qas => extract_qas_slots st device
      | .triples => extract_triples_slots st
      | .bert => calculate_bert_score_slots st device
    run_ops device rest st

/-- Concrete adapter bundle used to instantiate the universally quantified
theorems on explicit inputs: one sentence per text, no entities, no triples,
constant ROUGE / QAGS scores, and a similarity adapter returning three rows
of two scores each (so each row averages to 1/2 after the placeholder entry
is dropped). -/
def adapters0 : Adapters where
  segmenter := fun t => [t]
  ner := fun lines => lines.map fun _ => []
  rel := fun _ => []
  qg := fun _ _ => []
  qa := fun _ _ => []
  ie := fun _ => []
  bert_score := fun _ _ => [[1/2, 0], [1/2, 0], [1/2, 0]]
  rouge_n := fun _ _ _ => 1/2
  rouge_l := fun _ _ => 1/2
  qags_score := fun _ _ => 1/2

/-- Three concrete entity mentions within one sentence. -/
def entA : Entity := { word := "Paris", entity := "LOC", start := 0, «end» := 5 }

def entB : Entity := { word := "France", entity := "LOC", start := 24, «end» := 30 }

def entC : Entity := { word := "Seine", entity := "LOC", start := 35, «end» := 40 }

/-- A one-sentence document paired with its three entity mentions. -/
def linesW : List String := ["Paris is the capital of France by the Seine."]

def entsW : List (List Entity) := [[entA, entB, entC]]

/-- A source-side triple set and a summary-side triple set with no common
`(head, relation)` prefix: the comparability filter empties both sides. -/
def cexSources : Finset Triple := {("Paris", "capital_of", "France")}

def cexSummaries : Finset Triple := {("Paris", "located_on", "Seine")}

/-- A pair of identical one-element triple sets (kept intact by the
comparability filter). -/
def okSources : Finset Triple := {("Paris", "capital_of", "France")}

def okSummaries : Finset Triple := {("Paris", "capital_of", "France")}

/-- C5: the comparability filter is symmetric — filtering `(A, B)` yields
the same pair of sets, in swapped order, as filtering `(B, A)`:
`filter(A,B) = swap(filter(B,A))`. -/
theorem filter_out_symm (A B : Finset Triple) :
    filter_out A B = ((filter_out B A).2, (filter_out B A).1) := rfl

/-- C2: whenever the summary-side triple set remaining after the
comparability filter is empty, the score that `extract_facts` and
`extract_triples` compute on the filtered sets is exactly `0`, regardless of
the source-side set. -/
theorem score_zero_of_filtered_summary_empty (sources summaries : Finset Triple)
    (h : (filter_out sources summaries).2 = ∅) :
    fact_score_of (filter_out sources summaries).1
      (filter_out sources summaries).2 = 0 := by
  simp [fact_score_of, h]

theorem score_zero_of_filtered_summary_empty_witness :
    (filter_out cexSources cexSummaries).2 = ∅ ∧
      fact_score_of (filter_out cexSources cexSummaries).1
        (filter_out cexSources cexSummaries).2 = 0 :=
  ⟨by decide, score_zero_of_filtered_summary_empty cexSources cexSummaries (by decide)⟩

/-- C6 counterexample: the claim "filtered summary triples ⊆ filtered source
triples implies score = 1.0" fails when the filtered summary side is empty:
with source set `(Paris, capital_of, France)` and summary set
`(Paris, located_on, Seine)` both filtered sets are empty, the subset
relation holds vacuously, and the score is `0`, not `1`. -/
theorem score_one_of_filtered_subset_counterexample :
    (filter_out cexSources cexSummaries).2 ⊆ (filter_out cexSources cexSummaries).1 ∧
      fact_score_of (filter_out cexSources cexSummaries).1
        (filter_out cexSources cexSummaries).2 ≠ 1 := by
  decide

/-- C6 (amended): if the summary-side triples remaining after the
comparability filter are a *nonempty* subset of the filtered source-side
triples (exact 3-tuple equality), the computed score equals `1`. -/
theorem score_one_of_filtered_subset_nonempty (sources summaries : Finset Triple)
    (h1 : (filter_out sources summaries).2 ≠ ∅)
    (h2 : (filter_out sources summaries).2 ⊆ (filter_out sources summaries).1) :
    fact_score_of (filter_out sources summaries).1
      (filter_out sources summaries).2 = 1 := by
  have hinter : (filter_out sources summaries).2 ∩ (filter_out sources summaries).1
      = (filter_out sources summaries).2 := Finset.inter_eq_left.mpr h2
  have hcard : (((filter_out sources summaries).2.card : Rat)) ≠ 0 := by
    have h0 : (filter_out sources summaries).2.card ≠ 0 :=
      fun hc => h1 (Finset.card_eq_zero.mp hc)
    exact_mod_cast h0
  simp only [fact_score_of, hinter, if_neg h1]
  exact div_self hcard

theorem score_one_of_filtered_subset_nonempty_witness :
    (filter_out okSources okSummaries).2 ≠ ∅ ∧
      fact_score_of (filter_out okSources okSummaries).1
        (filter_out okSources okSummaries).2 = 1 :=
  ⟨by decide, score_one_of_filtered_subset_nonempty okSources okSummaries
    (by decide) (by decide)⟩

/-- C10: on the empty batch (`sources = []`, `summaries = []`) the entry
point passes the length-equality check, processes no pair and invokes no
adapter (the event trace is empty), and then fails with `ZeroDivisionError`
when dividing the totals by `num_pairs = 0`, instead of returning a metric
record. -/
theorem call_empty_batch_zero_division (ad : Adapters) (verbose : Bool)
    (device : String) :
    call ad [] [] verbose device = (.error .zeroDivisionError, []) := rfl

/-- C3: whenever the two input sequences have different lengths, the entry
point fails with the `ValueError` invalid-argument error, and the empty
event trace shows that no adapter was invoked and no pair was processed
before the failure. -/
theorem call_length_mismatch_value_error (ad : Adapters)
    (sources summaries : List String) (verbose : Bool) (device : String)
    (h : sources.length ≠ summaries.length) :
    call ad sources summaries verbose device =
      (.error (.valueError
        "`sources` and `summaries` must have the same number of elements!"), []) := by
  simp [call, h]

theorem call_length_mismatch_value_error_witness :
    (["a"] : List String).length ≠ ([] : List String).length ∧
      call adapters0 ["a"] [] false "cpu" =
        (.error (.valueError
          "`sources` and `summaries` must have the same number of elements!"), []) :=
  ⟨by decide,
   call_length_mismatch_value_error adapters0 ["a"] [] false "cpu" (by decide)⟩

/-- C9 (code bug): on a fresh orchestrator, calling `extract_qas` first and
`extract_facts` second leaves the RE slot holding its configured name
string — the `extract_facts` load guard requires *both* the NER and the RE
slot to still be strings, and NER was already loaded by `extract_qas` — so
`extract_facts` then invokes the plain string and raises `TypeError`,
instead of materializing the RE adapter at its first use as the claim
states. -/
theorem qas_then_facts_invokes_unloaded_rel :
    run_ops "cpu" [Op.qas, Op.facts]
        (factsumm_init "ner-model" "rel-model" "qg-model" "qa-model" "bert-model") =
      .error (.typeError "str object is not callable") := rfl

/-- C1 (code bug): the batch averaging divides `fact_score`, `qa_score`,
`triple_score` and each ROUGE component by the number of pairs, but returns
the three `bert_score` components as plain sums.  With the concrete adapters
`adapters0` (per-pair bert components all `1/2`), a batch of two identical
pairs returns bert components `1`, twice the single-pair value, while all
other metric components coincide with the single-pair run. -/
theorem call_bert_components_summed_not_averaged :
    (call adapters0 ["src", "src"] ["abs", "abs"] false "cpu").1 =
      .ok { fact_score := 0, qa_score := 1/2, triple_score := 0,
            rouge := (1/2, 1/2, 1/2),
            bert_score := { precision := 1, «recall» := 1, f1 := 1 } } ∧
    (call adapters0 ["src"] ["abs"] false "cpu").1 =
      .ok { fact_score := 0, qa_score := 1/2, triple_score := 0,
            rouge := (1/2, 1/2, 1/2),
            bert_score := { precision := 1/2, «recall» := 1/2, f1 := 1/2 } } := by
  constructor
  · decide
  · decide

/-- Helper for C7: when every similarity row has at least two entries, the
post-processing loop of `calculate_bert_score` succeeds and returns, for
each row, the average of the row with its last element dropped. -/
theorem filter_scores_ok (rows : List (List Rat)) (h : ∀ r ∈ rows, 2 ≤ r.length) :
    filter_scores rows =
      .ok (rows.map fun r => r.dropLast.sum / (r.dropLast.length : Rat)) := by
  induction rows with
  | nil => rfl
  | cons r rest ih =>
    have hr : 2 ≤ r.length := h r (List.mem_cons_self r rest)
    have hrest : ∀ x ∈ rest, 2 ≤ x.length := fun x hx => h x (List.mem_cons_of_mem r hx)
    cases r with
    | nil => simp at hr
    | cons a t =>
      cases t with
      | nil => simp at hr
      | cons b t2 => simp [filter_scores, ih hrest]

/-- C7: `calculate_bert_score` pads the summary side with the throwaway
placeholder sentence `"dummy"` before invoking the similarity adapter on the
pair of line lists, and afterwards discards the placeholder contribution by
dropping the last element of each returned per-sentence score row before
averaging the remainder into the precision/recall/F1 values. -/
theorem calculate_bert_score_pads_and_drops (ad : Adapters) (source summary : String)
    (device : String)
    (h : ∀ r ∈ ad.bert_score [summary, "dummy"] (_segment ad source).1, 2 ≤ r.length) :
    (calculate_bert_score ad source summary false device).1 =
      .ok ((ad.bert_score [summary, "dummy"] (_segment ad source).1).map
        fun r => r.dropLast.sum / (r.dropLast.length : Rat)) := by
  simp [calculate_bert_score, filter_scores_ok _ h]

theorem calculate_bert_score_pads_and_drops_witness :
    (calculate_bert_score adapters0 "src" "abs" false "cpu").1 =
      .ok [1/2, 1/2, 1/2] :=
  (calculate_bert_score_pads_and_drops adapters0 "src" "abs" "cpu"
    (by decide)).trans (by decide)

/-- The value returned by `extract_facts` does not depend on the verbose
flag (only the print trace does). -/
theorem extract_facts_val (ad : Adapters) (source summary : String) (device : String) :
    (extract_facts ad source summary true device).1 =
      (extract_facts ad source summary false device).1 := rfl

/-- The value returned by `extract_qas` does not depend on the verbose
flag. -/
theorem extract_qas_val (ad : Adapters) (source summary : String)
    (source_ents summary_ents : Option (List (List Entity))) (device : String) :
    (extract_qas ad source summary source_ents summary_ents true device).1 =
      (extract_qas ad source summary source_ents summary_ents false device).1 := rfl

/-- The value returned by `extract_triples` does not depend on the verbose
flag. -/
theorem extract_triples_val (ad : Adapters) (source summary : String) :
    (extract_triples ad source summary true).1 =
      (extract_triples ad source summary false).1 := rfl

/-- The value returned by `calculate_rouge` does not depend on the verbose
flag. -/
theorem calculate_rouge_val (ad : Adapters) (source summary : String) :
    (calculate_rouge ad source summary true).1 =
      (calculate_rouge ad source summary false).1 := rfl

/-- The value returned by `calculate_bert_score` under verbose diagnostics,
expressed through the non-verbose value: identical on errors and on results
with at least three rows, and an `IndexError` (raised by the diagnostic
print indexing rows 0, 1, 2) on shorter results. -/
theorem calculate_bert_score_val (ad : Adapters) (source summary : String)
    (device : String) :
    (calculate_bert_score ad source summary true device).1 =
      match (calculate_bert_score ad source summary false device).1 with
      | .ok (p :: r :: f :: t) => .ok (p :: r :: f :: t)
      | .ok [] => .error .indexError
      | .ok [_] => .error .indexError
      | .ok [_, _] => .error .indexError
      | .error e => .error e := by
  cases h : filter_scores (ad.bert_score [summary, "dummy"] (_segment ad source).1) with
  | error e => simp [calculate_bert_score, h]
  | ok fs =>
    rcases fs with _ | ⟨p, _ | ⟨r, _ | ⟨f, t⟩⟩⟩
    · simp [calculate_bert_score, h]
    · simp [calculate_bert_score, h]
    · simp [calculate_bert_score, h]
    · simp [calculate_bert_score, h]

/-- The per-pair loop value (the error-or-accumulator part) does not depend
on the verbose flag: either both runs return the same totals, or both fail
with the same Python error. -/
theorem call_loop_val (ad : Adapters) (device : String) :
    ∀ (pairs : List (String × String)) (acc : CallAcc),
      (call_loop ad true device pairs acc).1 =
        (call_loop ad false device pairs acc).1 := by
  intro pairs
  induction pairs with
  | nil => intro acc; rfl
  | cons hd rest ih =>
    intro acc
    obtain ⟨source, summary⟩ := hd
    simp only [call_loop, extract_facts_val, extract_qas_val, extract_triples_val,
      calculate_rouge_val, calculate_bert_score_val]
    cases h : (calculate_bert_score ad source summary false device).1 with
    | error e => simp [h]
    | ok fs =>
      rcases fs with _ | ⟨b0, _ | ⟨b1, _ | ⟨b2, t⟩⟩⟩
      · simp [h]
      · simp [h]
      · simp [h]
      · simp [h, ih]

/-- C8: the returned metric mapping (or the raised error) of the pipeline
entry point is identical whether or not the verbose flag is set: the
diagnostic printing is a side channel that never alters any returned
value. -/
theorem call_verbose_independent (ad : Adapters) (sources summaries : List String)
    (device : String) :
    (call ad sources summaries true device).1 =
      (call ad sources summaries false device).1 := by
  by_cases h : sources.length = summaries.length
  · simp only [call, h, ne_eq, not_true_eq_false, if_false,
      call_loop_val ad device]
    cases hx : (call_loop ad false device (sources.zip summaries)
        { fact_scores := 0, qags_scores := 0, triple_scores := 0, rouges := (0, 0, 0),
          bert_scores := (0, 0, 0) }).1 with
    | error e => rfl
    | ok acc =>
      by_cases h0 : summaries.length = 0
      · simp [h0]
      · simp [h0]
  · simp [call, h]

/-- Helper for C4: `itertools.permutations(l, 2)` has exactly
`|l| · (|l| - 1)` elements. -/
theorem permutations2_length {α : Type} (l : List α) :
    (permutations2 l).length = l.length * (l.length - 1) := by
  unfold permutations2
  rw [List.length_flatMap]
  refine Eq.trans (List.sum_eq_card_nsmul _ (l.length - 1) ?_) ?_
  · intro x hx
    rw [List.mem_map] at hx
    obtain ⟨i, hi, hbi⟩ := hx
    rw [List.mem_range] at hi
    have hg : l.get? i = some l[i] := by
      rw [List.get?_eq_getElem?]
      exact List.getElem?_eq_getElem hi
    rw [← hbi]
    simp only [Function.comp_apply, hg]
    rw [List.length_map, List.length_eraseIdx]
    simp [hi]
  · rw [List.length_map, List.length_range, smul_eq_mul]

/-- Helper for C4: both components of an emitted ordered pair are members of
the input mention list. -/
theorem mem_permutations2 {α : Type} {l : List α} {p : α × α}
    (hp : p ∈ permutations2 l) : p.1 ∈ l ∧ p.2 ∈ l := by
  unfold permutations2 at hp
  rw [List.mem_flatMap] at hp
  obtain ⟨i, hi, hmem⟩ := hp
  cases hg : l.get? i with
  | none =>
    simp only [hg] at hmem
    exact absurd hmem (List.not_mem_nil p)
  | some x =>
    simp only [hg, List.mem_map] at hmem
    obtain ⟨y, hy, hxy⟩ := hmem
    subst hxy
    exact ⟨List.get?_mem hg, List.eraseIdx_subset l i hy⟩

/-- Helper for C4: the candidate bucket emitted for sentence `i`. -/
theorem build_perm_bucket (lines : List String) (ents : List (List Entity))
    (i : Nat) (h1 : i < lines.length) (h2 : i < ents.length) :
    (build_perm lines ents)[i]? =
      some ((permutations2 ents[i]).map fun comb =>
        ({ text := lines[i],
           spans := [(comb.1.start, comb.1.«end»), (comb.2.start, comb.2.«end»)] }
          : PermCandidate)) := by
  unfold build_perm
  rw [List.getElem?_map]
  have hz : (lines.zip ents)[i]? = some (lines[i], ents[i]) :=
    List.getElem?_zip_eq_some.mpr
      ⟨List.getElem?_eq_getElem h1, List.getElem?_eq_getElem h2⟩
  rw [hz]
  rfl

/-- C4: `build_perm` emits one candidate bucket per sentence; the bucket of
a sentence with `k` entity mentions holds exactly `k·(k-1)` ordered
candidates (so sentences with `0` or `1` mentions yield `0` candidates),
every candidate carries the full sentence text as its context, and both
spans of every candidate come from that same sentence's mention list — no
candidate ever pairs mentions of two different sentences. -/
theorem build_perm_spec (lines : List String) (total_entities : List (List Entity))
    (h : lines.length = total_entities.length) :
    (build_perm lines total_entities).length = lines.length ∧
    ∀ i, i < lines.length →
      ((build_perm lines total_entities).getD i []).length =
          (total_entities.getD i []).length * ((total_entities.getD i []).length - 1) ∧
      ∀ c ∈ (build_perm lines total_entities).getD i [],
        c.text = lines.getD i "" ∧
        ∃ a b, a ∈ total_entities.getD i [] ∧ b ∈ total_entities.getD i [] ∧
          c.spans = [(a.start, a.«end»), (b.start, b.«end»)] := by
  have hlen : (build_perm lines total_entities).length = lines.length := by
    unfold build_perm
    simp [List.length_zip, h]
  refine ⟨hlen, ?_⟩
  intro i hi
  have h2 : i < total_entities.length := h ▸ hi
  have hb := build_perm_bucket lines total_entities i hi h2
  have hD : (build_perm lines total_entities).getD i [] =
      (permutations2 total_entities[i]).map fun comb =>
        ({ text := lines[i],
           spans := [(comb.1.start, comb.1.«end»), (comb.2.start, comb.2.«end»)] }
          : PermCandidate) := by
    rw [List.getD_eq_getElem?_getD, hb]
    rfl
  have hE : total_entities.getD i [] = total_entities[i] := by
    rw [List.getD_eq_getElem?_getD, List.getElem?_eq_getElem h2]
    rfl
  have hL : lines.getD i "" = lines[i] := by
    rw [List.getD_eq_getElem?_getD, List.getElem?_eq_getElem hi]
    rfl
  constructor
  · rw [hD, hE, List.length_map, permutations2_length]
  · intro c hc
    rw [hD, List.mem_map] at hc
    obtain ⟨comb, hcomb, hceq⟩ := hc
    have hmem := mem_permutations2 hcomb
    constructor
    · rw [← hceq, hL]
    · refine ⟨comb.1, comb.2, ?_, ?_, ?_⟩
      · rw [hE]; exact hmem.1
      · rw [hE]; exact hmem.2
      · rw [← hceq]

theorem build_perm_spec_witness :
    (build_perm linesW entsW).length = linesW.length ∧
      ((build_perm linesW entsW).getD 0 []).length = 6 := by
  have hs := build_perm_spec linesW entsW (by decide)
  exact ⟨hs.1, ((hs.2 0 (by decide)).1).trans (by decide)⟩

end FactSumm
